import Mathlib

/-!
Verification of the arrival-detection core of the BusArrival application.

The development shallowly embeds the TypeScript sources:
* `src/utils.ts` — `calculateDistance` (Haversine, over ℝ) and `calculateETA`
  (over ℚ, exact rational arithmetic standing in for JS numbers);
* `src/components/LocationTracker.tsx` — the `watchPosition` callback that
  decides whether `onArrived` is invoked for a position sample, and the
  snooze-countdown computation;
* the top-level `App` component — the mode state machine
  (`IDLE / SEARCHING / TRACKING / ALARM`), the alarm repeat loop and
  `addToHistory`.

Timestamps (`Date.now()` values, milliseconds) are embedded as ℤ.
-/

namespace BusArrival

/-! ### Data model, from `src/types.ts` -/

/-- Embedding of the union type `Language` from `types.ts` (es, en). -/
inductive Language where
  | es
  | en
deriving DecidableEq

/-- Embedding of `MarkerSettings` from `types.ts`. -/
structure MarkerSettings where
  userColor : String
  userIcon : String
  destColor : String
  destIcon : String
deriving DecidableEq

/-- Embedding of the `alertType` union (distance, time) from `types.ts`. -/
inductive AlertType where
  | distance
  | time
deriving DecidableEq

/-- Embedding of `AlarmSettings` from `types.ts`.  `threshold` is meters when
`alertType = distance` and minutes when `alertType = time`. -/
structure AlarmSettings where
  alertType : AlertType
  threshold : ℚ
  enableSound : Bool
  alarmSound : String
  enableVibration : Bool
  language : Language
  markers : MarkerSettings
deriving DecidableEq

/-- Embedding of `Location` from `types.ts` (the `name` field is optional). Coordinates are embedded as
ℚ; the Haversine computation itself is carried out over ℝ below. -/
structure Location where
  lat : ℚ
  lng : ℚ
  name : Option String
deriving DecidableEq

/-- Embedding of `HistoryItem` from `types.ts`. -/
structure HistoryItem where
  id : String
  destination : Location
  timestamp : ℤ
deriving DecidableEq

/-- Embedding of the `AppMode` enum from `types.ts`. -/
inductive AppMode where
  | IDLE
  | SEARCHING
  | TRACKING
  | ALARM
deriving DecidableEq

/-! ### `src/utils.ts`: ETA estimation -/

/-- Default value 22 of the `avgSpeedKmH` argument of `calculateETA`
(typical urban bus speed, km/h). -/
def defaultAvgSpeedKmH : ℚ := 22

/-- Embedding of `calculateETA` from `src/utils.ts`: zero for non-positive
distances, otherwise the ceiling of the travel time in minutes at the given
average speed (`speedMS = avgSpeedKmH * 1000 / 3600`,
`timeSeconds = distanceMeters / speedMS`, result `ceil(timeSeconds / 60)`). -/
def calculateETA (distanceMeters : ℚ) (avgSpeedKmH : ℚ) : ℤ :=
  if distanceMeters ≤ 0 then 0
  else
    let speedMS : ℚ := avgSpeedKmH * 1000 / 3600
    let timeSeconds : ℚ := distanceMeters / speedMS
    ⌈timeSeconds / 60⌉

/-! ### `src/components/LocationTracker.tsx`: the arrival decision

The body of the `watchPosition` success callback, after the distance to the
destination has been computed.  It returns whether `onArrived()` is invoked
for this sample.  `now` is the value of `Date.now()` at evaluation time and
`snoozeUntil` is the component state of the same name (milliseconds). -/

/-- The trigger decision of the `watchPosition` callback
(`LocationTracker.tsx`): ignore the sample while snoozed, otherwise compare
the distance (DISTANCE mode) or the ETA (TIME mode) against the threshold,
boundary inclusive. -/
def shouldTrigger (settings : AlarmSettings) (dist : ℚ) (now snoozeUntil : ℤ) : Bool :=
  let currentEta : ℚ := ((calculateETA dist defaultAvgSpeedKmH : ℤ) : ℚ)
  if now < snoozeUntil then false
  else if settings.alertType = AlertType.distance then
    decide (dist ≤ settings.threshold)
  else
    decide (currentEta ≤ settings.threshold)

/-- The step-4 trigger condition as worded in the specification: distance (or
ETA) at or below the threshold, according to the alert type.  Used to compare
the decision of the code against the specified condition. -/
def specTriggerCondition (settings : AlarmSettings) (dist : ℚ) : Prop :=
  if settings.alertType = AlertType.distance then
    dist ≤ settings.threshold
  else
    ((calculateETA dist defaultAvgSpeedKmH : ℤ) : ℚ) ≤ settings.threshold

instance (settings : AlarmSettings) (dist : ℚ) :
    Decidable (specTriggerCondition settings dist) := by
  unfold specTriggerCondition
  split <;> infer_instance

/-! ### Snooze countdown (`LocationTracker.tsx`, second effect) -/

/-- The countdown value shown by the snooze effect in `LocationTracker.tsx`:
while `snoozeUntil > Date.now()` the interval computes
`Math.max(0, Math.ceil((snoozeUntil - Date.now()) / 1000))`, otherwise the
component sets `secondsLeft` to zero. -/
def secondsLeftDisplayed (snoozeUntil now : ℤ) : ℤ :=
  if now < snoozeUntil then
    max 0 ⌈((snoozeUntil - now : ℤ) : ℚ) / 1000⌉
  else 0

/-- The specification formula for the remaining snooze seconds:
`max(0, ceil((snoozeUntil - now) / 1000))`. -/
def specRemainingSeconds (snoozeUntil now : ℤ) : ℤ :=
  max 0 ⌈((snoozeUntil - now : ℤ) : ℚ) / 1000⌉

/-! ### Trip history (`App`, `addToHistory`) -/

/-- Embedding of `addToHistory` from the `App` component: prepend a fresh item and keep at
most nine of the previous items, dropping any previous item whose destination
name equals the new destination name:

`setHistory(prev => [newItem, ...prev.filter(h => h.destination.name !== loc.name).slice(0, 9)])`

`nowMs` stands for `Date.now()`; the item id is its decimal string. -/
def addToHistory (prev : List HistoryItem) (loc : Location) (nowMs : ℤ) : List HistoryItem :=
  let newItem : HistoryItem := { id := toString nowMs, destination := loc, timestamp := nowMs }
  newItem :: ((prev.filter (fun h => h.destination.name ≠ loc.name)).take 9)

/-! ### The `App` session state machine

The `App` component owns `mode` and renders `LocationTracker` exactly when
`mode` is `TRACKING` or `ALARM` (and a destination is set).  The `onArrived` callback of the tracker is `() => setMode(AppMode.ALARM)`; the dismiss button
calls `resetApp`, which returns to `IDLE` and clears the destination; the
confirm button calls `addToHistory` and `setMode(AppMode.TRACKING)`. -/

/-- The session state owned by `App` (plus the tracker-owned `snoozeUntil`),
restricted to the fields the arrival decision reads. -/
structure AppState where
  mode : AppMode
  destination : Option Location
  snoozeUntil : ℤ
deriving DecidableEq

/-- One position sample as seen by the `watchPosition` callback: the distance
to the destination computed from it, and `Date.now()` at evaluation time. -/
structure PositionSample where
  dist : ℚ
  now : ℤ
deriving DecidableEq

/-- Processing of one position sample at the `App` level: the tracker is
mounted only in `TRACKING` or `ALARM` mode with a destination set; its
callback runs `shouldTrigger` and, on `true`, calls `onArrived()` which is
`setMode(AppMode.ALARM)`. -/
def processSample (settings : AlarmSettings) (st : AppState) (p : PositionSample) : AppState :=
  if (st.mode = AppMode.TRACKING ∨ st.mode = AppMode.ALARM) ∧ st.destination.isSome then
    if shouldTrigger settings p.dist p.now st.snoozeUntil then
      { st with mode := AppMode.ALARM }
    else st
  else st

/-- Embedding of `resetApp` from `App`: back to `IDLE`, destination cleared (the dismissal
path of the alarm overlay, and the cancel-travel button). -/
def resetApp (st : AppState) : AppState :=
  { st with mode := AppMode.IDLE, destination := none }

/-- The activate-alarm button of the `SEARCHING` card: start a new tracking
session for the current destination. -/
def startTracking (st : AppState) : AppState :=
  { st with mode := AppMode.TRACKING }

/-- The arrival event fires on a sample when processing it moves the session
into `ALARM` mode from a mode that was not already `ALARM`. -/
def firesOn (settings : AlarmSettings) (st : AppState) (p : PositionSample) : Prop :=
  st.mode ≠ AppMode.ALARM ∧ (processSample settings st p).mode = AppMode.ALARM

instance (settings : AlarmSettings) (st : AppState) (p : PositionSample) :
    Decidable (firesOn settings st p) := by
  unfold firesOn; infer_instance

/-- Number of arrival events fired while processing a stream of samples. -/
def fireCount (settings : AlarmSettings) : AppState → List PositionSample → ℕ
  | _, [] => 0
  | st, p :: rest =>
      (if firesOn settings st p then 1 else 0)
      + fireCount settings (processSample settings st p) rest

/-! ### The alarm repeat loop (`App`, first `useEffect`)

The effect watches `mode`: when it becomes `ALARM` it calls `triggerAlert()`
immediately and installs `window.setInterval(triggerAlert, 1500)`; its
cleanup clears the interval, so leaving `ALARM` deterministically stops the
repetition.  The model keeps the currently installed interval (if any) in the
state; a `tick` event is one expiry of the installed interval. -/

/-- One assertion of the alert, as performed by `triggerAlert` in `App`:
the sound profile played (when sound is enabled) and the vibration pattern
requested (when vibration is enabled). -/
structure AlertAction where
  sound : Option String
  vibration : Option (List ℕ)
deriving DecidableEq

/-- Embedding of `triggerAlert` from the alarm-loop effect: play `settings.alarmSound`
when `enableSound`, vibrate `[500, 200, 500]` when `enableVibration`. -/
def triggerAlert (settings : AlarmSettings) : AlertAction :=
  { sound := if settings.enableSound then some settings.alarmSound else none
    vibration := if settings.enableVibration then some [500, 200, 500] else none }

/-- State of the alarm-loop effect: the current mode and the period (ms) of
the installed repeat interval, when one is installed. -/
structure AlarmLoopState where
  mode : AppMode
  repeatIntervalMs : Option ℕ
deriving DecidableEq

/-- Events seen by the alarm-loop effect: a mode change (the only dependency of
the effect that matters here) or one expiry of the installed interval. -/
inductive LoopEvent where
  | modeSet (m : AppMode)
  | tick
deriving DecidableEq

/-- Semantics of the alarm-loop effect.  On a mode change the cleanup of the
previous effect run clears the interval and the effect runs again: entering `ALARM` asserts
the alert immediately and installs the 1500 ms repeat interval; any other
mode leaves no interval installed.  An expiry of an installed interval
asserts the alert again. -/
def alarmLoopStep (settings : AlarmSettings) (st : AlarmLoopState) :
    LoopEvent → AlarmLoopState × List AlertAction
  | LoopEvent.modeSet m =>
      if m = st.mode then (st, [])
      else if m = AppMode.ALARM then
        ({ mode := m, repeatIntervalMs := some 1500 }, [triggerAlert settings])
      else
        ({ mode := m, repeatIntervalMs := none }, [])
  | LoopEvent.tick =>
      match st.repeatIntervalMs with
      | some _ => (st, [triggerAlert settings])
      | none => (st, [])

/-- Run the alarm-loop effect over a list of events. -/
def alarmLoopRun (settings : AlarmSettings) : AlarmLoopState → List LoopEvent → AlarmLoopState
  | st, [] => st
  | st, e :: es => alarmLoopRun settings (alarmLoopStep settings st e).1 es

/-- Initial state of `App`: `mode = IDLE`, no interval installed. -/
def initialLoopState : AlarmLoopState :=
  { mode := AppMode.IDLE, repeatIntervalMs := none }

/-! ### `src/utils.ts`: Haversine distance, over ℝ -/

/-- The JavaScript `Math.atan2(y, x)` function over the reals (the IEEE
signed-zero distinctions collapse; `atan2 0 0 = 0`). -/
noncomputable def atan2 (y x : ℝ) : ℝ :=
  if 0 < x then Real.arctan (y / x)
  else if x < 0 then
    (if 0 ≤ y then Real.arctan (y / x) + Real.pi else Real.arctan (y / x) - Real.pi)
  else
    (if 0 < y then Real.pi / 2 else if y < 0 then -(Real.pi / 2) else 0)

/-- `calculateDistance` from `src/utils.ts`: the Haversine great-circle
distance in meters, Earth radius `6371e3`. -/
noncomputable def calculateDistance (lat1 lon1 lat2 lon2 : ℝ) : ℝ :=
  let R : ℝ := 6371000
  let φ1 : ℝ := lat1 * Real.pi / 180
  let φ2 : ℝ := lat2 * Real.pi / 180
  let Δφ : ℝ := (lat2 - lat1) * Real.pi / 180
  let Δlon : ℝ := (lon2 - lon1) * Real.pi / 180
  let a : ℝ :=
    Real.sin (Δφ / 2) * Real.sin (Δφ / 2) +
      Real.cos φ1 * Real.cos φ2 * Real.sin (Δlon / 2) * Real.sin (Δlon / 2)
  let c : ℝ := 2 * atan2 (Real.sqrt a) (Real.sqrt (1 - a))
  R * c

/-! ### Test fixtures and auxiliary predicates -/

/-- Settings fixture: the initial settings of `App` with a chosen alert type
and threshold (sound and vibration enabled, pulse profile). -/
def mkSettings (ty : AlertType) (th : ℚ) : AlarmSettings :=
  { alertType := ty
    threshold := th
    enableSound := true
    alarmSound := "pulse"
    enableVibration := true
    language := Language.es
    markers :=
      { userColor := "#3b82f6"
        userIcon := "map-pin"
        destColor := "#ef4444"
        destIcon := "map-pin" } }

/-- Invariant of the alarm-loop effect: the 1500 ms repeat interval is
installed exactly while the mode is `ALARM`. -/
def loopInvariant (st : AlarmLoopState) : Prop :=
  st.repeatIntervalMs = if st.mode = AppMode.ALARM then some 1500 else none

/-! ## Theorems -/

/-! ### Helper lemmas -/

/-- The ETA at the default speed is never negative. -/
lemma calculateETA_default_nonneg (d : ℚ) : 0 ≤ calculateETA d defaultAvgSpeedKmH := by
  unfold calculateETA defaultAvgSpeedKmH
  split
  · exact le_refl 0
  · rename_i h
    push_neg at h
    exact Int.ceil_nonneg
      (div_nonneg (div_nonneg (le_of_lt h) (by norm_num)) (by norm_num))

/-- The ETA at the default speed is positive exactly for positive distances. -/
lemma calculateETA_default_pos_iff (d : ℚ) :
    0 < calculateETA d defaultAvgSpeedKmH ↔ 0 < d := by
  unfold calculateETA defaultAvgSpeedKmH
  split
  · rename_i h
    constructor
    · intro h0
      exact absurd h0 (lt_irrefl 0)
    · intro h0
      exact absurd h0 (not_lt.mpr h)
  · rename_i h
    push_neg at h
    simp only [Int.ceil_pos]
    constructor
    · intro _
      exact h
    · intro _
      positivity

/-! ### C6: the ETA formula -/

/-- C6: for every positive distance, `calculateETA` returns
`ceil(distanceMeters / (avgSpeedKmH * 1000 / 3600) / 60)` minutes, and for
every non-positive distance it returns `0`; the default average speed is
22 km/h. -/
theorem calculateETA_spec (d s : ℚ) :
    defaultAvgSpeedKmH = 22 ∧
    (0 < d → calculateETA d s = ⌈d / (s * 1000 / 3600) / 60⌉) ∧
    (d ≤ 0 → calculateETA d s = 0) := by
  refine ⟨rfl, ?_, ?_⟩
  · intro hd
    unfold calculateETA
    rw [if_neg (not_le.mpr hd)]
  · intro hd
    unfold calculateETA
    rw [if_pos hd]

/-- Witness for C6 at concrete inputs: 2200 m at 22 km/h is 6 minutes, and a
negative distance yields 0. -/
theorem calculateETA_spec_witness :
    (0:ℚ) < 2200 ∧ calculateETA 2200 22 = 6 ∧ calculateETA (-5) 22 = 0 := by
  refine ⟨by norm_num, ?_, (calculateETA_spec (-5) 22).2.2 (by norm_num)⟩
  rw [(calculateETA_spec 2200 22).2.1 (by norm_num)]
  rw [show (2200:ℚ) / (22 * 1000 / 3600) / 60 = ((6:ℤ) : ℚ) by norm_num]
  exact Int.ceil_intCast 6

/-! ### C8: the snooze countdown formula -/

/-- C8: the remaining snooze seconds exposed by the countdown equal
`max(0, ceil((snoozeUntil - now) / 1000))`, and equal `0` whenever the snooze
window has expired or no snooze is active. -/
theorem secondsLeft_spec (su now : ℤ) :
    secondsLeftDisplayed su now = specRemainingSeconds su now ∧
    (su ≤ now → secondsLeftDisplayed su now = 0) := by
  constructor
  · unfold secondsLeftDisplayed specRemainingSeconds
    split
    · rfl
    · rename_i h
      push_neg at h
      have hsub : ((su - now : ℤ) : ℚ) ≤ 0 := by
        exact_mod_cast sub_nonpos.mpr h
      have hle : ((su - now : ℤ) : ℚ) / 1000 ≤ ((0 : ℤ) : ℚ) := by
        rw [Int.cast_zero]
        exact div_nonpos_iff.mpr (Or.inr ⟨hsub, by norm_num⟩)
      have hceil : ⌈((su - now : ℤ) : ℚ) / 1000⌉ ≤ 0 := Int.ceil_le.mpr hle
      exact (max_eq_left hceil).symm
  · intro h
    unfold secondsLeftDisplayed
    rw [if_neg (not_lt.mpr h)]

/-- Witness for C8: an expired snooze shows 0, a live snooze matches the
specification formula. -/
theorem secondsLeft_spec_witness :
    secondsLeftDisplayed 0 5000 = 0 ∧
    secondsLeftDisplayed 7000 2500 = specRemainingSeconds 7000 2500 :=
  ⟨(secondsLeft_spec 0 5000).2 (by decide), (secondsLeft_spec 7000 2500).1⟩

/-! ### C3: snooze fully masks triggering -/

/-- C3: while `now < snoozeUntil` the detector never fires, even when the
trigger condition is met; at or after `snoozeUntil`, the identical sample
fires exactly when the trigger condition holds. -/
theorem snooze_masking_spec (settings : AlarmSettings) (dist : ℚ) (now su : ℤ) :
    (now < su → shouldTrigger settings dist now su = false) ∧
    (su ≤ now →
      (shouldTrigger settings dist now su = true ↔ specTriggerCondition settings dist)) := by
  constructor
  · intro h
    unfold shouldTrigger
    rw [if_pos h]
  · intro h
    cases hA : settings.alertType <;>
      simp [shouldTrigger, specTriggerCondition, hA, not_lt.mpr h]

/-- Witness for C3, the scenario of the specification: with a 60 s snooze
window, a sample meeting the condition inside the window does not fire and
the identical sample after the window fires. -/
theorem snooze_masking_spec_witness :
    shouldTrigger (mkSettings AlertType.distance 500) 400 0 60000 = false ∧
    shouldTrigger (mkSettings AlertType.distance 500) 400 61000 60000 = true := by
  constructor
  · exact (snooze_masking_spec (mkSettings AlertType.distance 500) 400 0 60000).1 (by decide)
  · exact ((snooze_masking_spec (mkSettings AlertType.distance 500) 400 61000 60000).2
      (by decide)).mpr (by decide)

/-! ### C4: threshold comparison is boundary inclusive -/

/-- C4: when not snoozed, DISTANCE mode fires exactly when
`distanceMeters <= threshold` and TIME mode fires exactly when
`etaMinutes <= threshold` (boundary inclusive in both modes). -/
theorem trigger_boundary_spec (settings : AlarmSettings) (dist : ℚ) (now su : ℤ)
    (h : ¬ now < su) :
    (settings.alertType = AlertType.distance →
      (shouldTrigger settings dist now su = true ↔ dist ≤ settings.threshold)) ∧
    (settings.alertType = AlertType.time →
      (shouldTrigger settings dist now su = true ↔
        ((calculateETA dist defaultAvgSpeedKmH : ℤ) : ℚ) ≤ settings.threshold)) := by
  constructor <;> intro hA <;> simp [shouldTrigger, hA, h]

/-- Witness for C4, the scenario of the specification: threshold 500 m, a
sample at 501 m does not fire and a sample at 500 m fires. -/
theorem trigger_boundary_spec_witness :
    shouldTrigger (mkSettings AlertType.distance 500) 501 0 0 = false ∧
    shouldTrigger (mkSettings AlertType.distance 500) 500 0 0 = true := by
  constructor
  · have h := (trigger_boundary_spec (mkSettings AlertType.distance 500) 501 0 0
      (by decide)).1 rfl
    rw [Bool.eq_false_iff]
    intro hc
    exact absurd (h.mp hc) (by decide)
  · exact ((trigger_boundary_spec (mkSettings AlertType.distance 500) 500 0 0
      (by decide)).1 rfl).mpr (by decide)

/-! ### C2: non-positive thresholds -/

/-- Counterexample to C2 as stated: it is not true that every threshold that
is zero or negative never fires.  With `threshold = 0` in DISTANCE mode, a
sample at distance exactly `0` satisfies `dist <= settings.threshold` and the
detector fires. -/
theorem zero_threshold_fires_cex :
    ¬ (∀ (settings : AlarmSettings) (dist : ℚ) (now su : ℤ),
        settings.threshold ≤ 0 → shouldTrigger settings dist now su = false) := by
  intro h
  have h0 := h (mkSettings AlertType.distance 0) 0 0 0 (by decide)
  exact absurd h0 (by decide)

/-- C2 amended: for the nonnegative distances the app computes, a strictly
negative threshold never fires, in both DISTANCE and TIME modes; a threshold
of exactly `0` fires (when not snoozed) precisely on a distance of exactly
`0`. -/
theorem nonpositive_threshold_spec (settings : AlarmSettings) (dist : ℚ) (now su : ℤ)
    (hd : 0 ≤ dist) :
    (settings.threshold < 0 → shouldTrigger settings dist now su = false) ∧
    (settings.threshold = 0 → ¬ now < su →
      (shouldTrigger settings dist now su = true ↔ dist = 0)) := by
  constructor
  · intro hth
    by_cases hs : now < su
    · unfold shouldTrigger
      rw [if_pos hs]
    · cases hA : settings.alertType
      · have hnle : ¬ dist ≤ settings.threshold :=
          fun hc => absurd (le_trans hd hc) (not_le.mpr hth)
        simp [shouldTrigger, hA, hs, hnle]
      · have h0 : (0:ℚ) ≤ ((calculateETA dist defaultAvgSpeedKmH : ℤ) : ℚ) := by
          exact_mod_cast calculateETA_default_nonneg dist
        have hnle : ¬ ((calculateETA dist defaultAvgSpeedKmH : ℤ) : ℚ) ≤ settings.threshold :=
          fun hc => absurd (le_trans h0 hc) (not_le.mpr hth)
        simp [shouldTrigger, hA, hs, hnle]
  · intro hth hs
    cases hA : settings.alertType
    · simp only [shouldTrigger, hA, hth, if_neg hs, if_pos rfl, eq_self_iff_true, if_true,
        decide_eq_true_eq]
      exact ⟨fun h => le_antisymm h hd, fun h => le_of_eq h⟩
    · have hstep : shouldTrigger settings dist now su =
          decide (((calculateETA dist defaultAvgSpeedKmH : ℤ) : ℚ) ≤ settings.threshold) := by
        simp [shouldTrigger, hA, hs]
      rw [hstep, hth, decide_eq_true_eq]
      constructor
      · intro h
        have heta : calculateETA dist defaultAvgSpeedKmH ≤ 0 := by exact_mod_cast h
        have hnpos : ¬ 0 < calculateETA dist defaultAvgSpeedKmH := not_lt.mpr heta
        have hdle : ¬ 0 < dist := fun hc =>
          hnpos ((calculateETA_default_pos_iff dist).mpr hc)
        exact le_antisymm (not_lt.mp hdle) hd
      · intro h
        subst h
        have hz : calculateETA 0 defaultAvgSpeedKmH = 0 := by
          unfold calculateETA
          rw [if_pos le_rfl]
        rw [hz]
        norm_num

/-- Witness for the amended C2: negative thresholds never fire in either
mode, and a zero threshold fires at distance exactly zero. -/
theorem nonpositive_threshold_spec_witness :
    shouldTrigger (mkSettings AlertType.distance (-50)) 200 0 0 = false ∧
    shouldTrigger (mkSettings AlertType.time (-1)) 200 0 0 = false ∧
    shouldTrigger (mkSettings AlertType.distance 0) 0 0 0 = true :=
  ⟨(nonpositive_threshold_spec (mkSettings AlertType.distance (-50)) 200 0 0
      (by decide)).1 (by decide),
   (nonpositive_threshold_spec (mkSettings AlertType.time (-1)) 200 0 0
      (by decide)).1 (by decide),
   ((nonpositive_threshold_spec (mkSettings AlertType.distance 0) 0 0 0
      (by decide)).2 rfl (by decide)).mpr rfl⟩

/-! ### C1: the arrival event fires at most once per session -/

/-- Once the session is in `ALARM` mode, processing further samples keeps it
there. -/
lemma processSample_mode_alarm (settings : AlarmSettings) (st : AppState) (p : PositionSample)
    (h : st.mode = AppMode.ALARM) :
    (processSample settings st p).mode = AppMode.ALARM := by
  unfold processSample
  split
  · split
    · rfl
    · exact h
  · exact h

/-- No arrival event fires on any sample stream started in `ALARM` mode. -/
lemma fireCount_of_alarm (settings : AlarmSettings) (l : List PositionSample) :
    ∀ st : AppState, st.mode = AppMode.ALARM → fireCount settings st l = 0 := by
  induction l with
  | nil =>
      intro st _
      rfl
  | cons p rest ih =>
      intro st h
      have hnf : ¬ firesOn settings st p := fun hc => hc.1 h
      simp only [fireCount, if_neg hnf, zero_add]
      exact ih _ (processSample_mode_alarm settings st p h)

/-- C1: the arrival event fires at most once per tracking session.  The
`alreadyFired` flag of the specification is realised by the caller as
`mode = ALARM`: along any stream of samples at most one sample moves the
session into `ALARM`; a sample arriving while the session is already in
`ALARM` (alreadyFired) never fires again; and after dismissal (`resetApp`)
no sample fires until a new session is started. -/
theorem arrival_fires_at_most_once :
    (∀ (settings : AlarmSettings) (st : AppState) (samples : List PositionSample),
        fireCount settings st samples ≤ 1) ∧
    (∀ (settings : AlarmSettings) (st : AppState) (p : PositionSample),
        st.mode = AppMode.ALARM → ¬ firesOn settings st p) ∧
    (∀ (settings : AlarmSettings) (st : AppState) (p : PositionSample),
        ¬ firesOn settings (resetApp st) p) := by
  refine ⟨?_, ?_, ?_⟩
  · intro settings st samples
    induction samples generalizing st with
    | nil => exact Nat.zero_le 1
    | cons p rest ih =>
        by_cases hf : firesOn settings st p
        · simp only [fireCount, if_pos hf,
            fireCount_of_alarm settings rest _ hf.2]
          omega
        · simp only [fireCount, if_neg hf, zero_add]
          exact ih _
  · intro settings st p h hc
    exact hc.1 h
  · intro settings st p hc
    have h1 : processSample settings (resetApp st) p = resetApp st := by
      unfold processSample resetApp
      simp
    rw [firesOn, h1] at hc
    exact absurd hc.2 (by simp [resetApp])

/-- Witness for C1, the scenario of the specification: threshold 500 m, a
session seeing samples at 501 m, 499 m and 450 m fires exactly once; a
sample arriving in `ALARM` mode does not fire; a sample arriving after
dismissal does not fire. -/
theorem arrival_fires_at_most_once_witness :
    fireCount (mkSettings AlertType.distance 500)
        { mode := AppMode.TRACKING
          destination := some { lat := 0, lng := 0, name := some "Stop" }
          snoozeUntil := 0 }
        [{ dist := 501, now := 0 }, { dist := 499, now := 0 }, { dist := 450, now := 0 }] ≤ 1 ∧
    fireCount (mkSettings AlertType.distance 500)
        { mode := AppMode.TRACKING
          destination := some { lat := 0, lng := 0, name := some "Stop" }
          snoozeUntil := 0 }
        [{ dist := 501, now := 0 }, { dist := 499, now := 0 }, { dist := 450, now := 0 }] = 1 ∧
    ¬ firesOn (mkSettings AlertType.distance 500)
        { mode := AppMode.ALARM
          destination := some { lat := 0, lng := 0, name := some "Stop" }
          snoozeUntil := 0 }
        { dist := 100, now := 0 } ∧
    ¬ firesOn (mkSettings AlertType.distance 500)
        (resetApp
          { mode := AppMode.ALARM
            destination := some { lat := 0, lng := 0, name := some "Stop" }
            snoozeUntil := 0 })
        { dist := 100, now := 0 } :=
  ⟨arrival_fires_at_most_once.1 _ _ _,
   by decide,
   arrival_fires_at_most_once.2.1 _ _ _ rfl,
   arrival_fires_at_most_once.2.2 _ _ _⟩

/-! ### C5: alarm repetition starts on entering ALARM and stops on leaving -/

/-- One step of the alarm-loop effect preserves the interval invariant. -/
lemma alarmLoopStep_preserves_invariant (settings : AlarmSettings) (st : AlarmLoopState)
    (e : LoopEvent) (h : loopInvariant st) : loopInvariant (alarmLoopStep settings st e).1 := by
  cases e with
  | modeSet m =>
      simp only [alarmLoopStep]
      by_cases h1 : m = st.mode
      · rw [if_pos h1]
        exact h
      · rw [if_neg h1]
        by_cases h2 : m = AppMode.ALARM
        · rw [if_pos h2]
          unfold loopInvariant
          simp [h2]
        · rw [if_neg h2]
          unfold loopInvariant
          simp [h2]
  | tick =>
      simp only [alarmLoopStep]
      split <;> exact h

/-- The interval invariant holds along any run of the alarm-loop effect. -/
lemma alarmLoopRun_invariant (settings : AlarmSettings) (events : List LoopEvent) :
    ∀ st : AlarmLoopState, loopInvariant st → loopInvariant (alarmLoopRun settings st events) := by
  induction events with
  | nil =>
      intro st h
      exact h
  | cons e es ih =>
      intro st h
      exact ih _ (alarmLoopStep_preserves_invariant settings st e h)

/-- C5: entering `ALARM` asserts the alert (sound when enabled, vibration
when enabled) immediately and installs the 1500 ms repeat interval; every
expiry of an installed interval re-asserts the alert; leaving `ALARM` always
uninstalls the interval; and in any reachable state whose mode is not
`ALARM` a timer expiry produces no alert at all. -/
theorem alarm_loop_spec :
    (∀ (settings : AlarmSettings) (st : AlarmLoopState),
        st.mode ≠ AppMode.ALARM →
        alarmLoopStep settings st (LoopEvent.modeSet AppMode.ALARM) =
          ({ mode := AppMode.ALARM, repeatIntervalMs := some 1500 },
            [triggerAlert settings])) ∧
    (∀ (settings : AlarmSettings) (st : AlarmLoopState) (k : ℕ),
        st.repeatIntervalMs = some k →
        alarmLoopStep settings st LoopEvent.tick = (st, [triggerAlert settings])) ∧
    (∀ (settings : AlarmSettings) (st : AlarmLoopState) (m : AppMode),
        m ≠ AppMode.ALARM → m ≠ st.mode →
        (alarmLoopStep settings st (LoopEvent.modeSet m)).1.repeatIntervalMs = none) ∧
    (∀ (settings : AlarmSettings) (events : List LoopEvent),
        (alarmLoopRun settings initialLoopState events).mode ≠ AppMode.ALARM →
        alarmLoopStep settings (alarmLoopRun settings initialLoopState events) LoopEvent.tick =
          (alarmLoopRun settings initialLoopState events, [])) ∧
    (∀ settings : AlarmSettings,
        triggerAlert settings =
          { sound := if settings.enableSound then some settings.alarmSound else none
            vibration := if settings.enableVibration then some [500, 200, 500] else none }) := by
  refine ⟨?_, ?_, ?_, ?_, ?_⟩
  · intro settings st h
    simp only [alarmLoopStep]
    rw [if_neg (Ne.symm h), if_true]
  · intro settings st k hk
    simp [alarmLoopStep, hk]
  · intro settings st m hm hne
    simp only [alarmLoopStep]
    rw [if_neg hne, if_neg hm]
  · intro settings events h
    have hinv := alarmLoopRun_invariant settings events initialLoopState
      (by unfold loopInvariant initialLoopState; simp)
    unfold loopInvariant at hinv
    rw [if_neg h] at hinv
    simp [alarmLoopStep, hinv]
  · intro settings
    rfl

/-- Witness for C5 on a concrete run: entering `ALARM` from idle emits the
alert and installs the interval, a tick re-asserts it, returning to `IDLE`
uninstalls the interval, and a tick after the `ALARM`-then-`IDLE` run emits
nothing. -/
theorem alarm_loop_spec_witness :
    alarmLoopStep (mkSettings AlertType.time 5) initialLoopState
        (LoopEvent.modeSet AppMode.ALARM) =
      ({ mode := AppMode.ALARM, repeatIntervalMs := some 1500 },
        [triggerAlert (mkSettings AlertType.time 5)]) ∧
    alarmLoopStep (mkSettings AlertType.time 5)
        { mode := AppMode.ALARM, repeatIntervalMs := some 1500 } LoopEvent.tick =
      ({ mode := AppMode.ALARM, repeatIntervalMs := some 1500 },
        [triggerAlert (mkSettings AlertType.time 5)]) ∧
    (alarmLoopStep (mkSettings AlertType.time 5)
        { mode := AppMode.ALARM, repeatIntervalMs := some 1500 }
        (LoopEvent.modeSet AppMode.IDLE)).1.repeatIntervalMs = none ∧
    alarmLoopStep (mkSettings AlertType.time 5)
        (alarmLoopRun (mkSettings AlertType.time 5) initialLoopState
          [LoopEvent.modeSet AppMode.ALARM, LoopEvent.modeSet AppMode.IDLE])
        LoopEvent.tick =
      (alarmLoopRun (mkSettings AlertType.time 5) initialLoopState
          [LoopEvent.modeSet AppMode.ALARM, LoopEvent.modeSet AppMode.IDLE], []) :=
  ⟨alarm_loop_spec.1 _ _ (by decide),
   alarm_loop_spec.2.1 _ _ 1500 rfl,
   alarm_loop_spec.2.2.1 _ _ _ (by decide) (by decide),
   alarm_loop_spec.2.2.2.1 _ _ (by decide)⟩

/-! ### C9: trip history is bounded, ordered, and name-deduplicated -/

/-- C9: after every `addToHistory` call the history holds at most 10 entries;
no entry other than the newly added head shares the destination name of the
new item; and when the previous history was ordered most-recent first with
all timestamps at or before the current time, the new history is again
ordered most-recent first. -/
theorem addToHistory_spec (prev : List HistoryItem) (loc : Location) (nowMs : ℤ) :
    (addToHistory prev loc nowMs).length ≤ 10 ∧
    (∀ item ∈ (addToHistory prev loc nowMs).tail, item.destination.name ≠ loc.name) ∧
    ((∀ item ∈ prev, item.timestamp ≤ nowMs) →
      List.Pairwise (fun a b => b.timestamp ≤ a.timestamp) prev →
      List.Pairwise (fun a b => b.timestamp ≤ a.timestamp) (addToHistory prev loc nowMs)) := by
  refine ⟨?_, ?_, ?_⟩
  · unfold addToHistory
    simp only [List.length_cons]
    have h9 : ((prev.filter fun h => h.destination.name ≠ loc.name).take 9).length ≤ 9 := by
      rw [List.length_take]
      exact min_le_left _ _
    omega
  · intro item hitem
    unfold addToHistory at hitem
    simp only [List.tail_cons] at hitem
    have h1 : item ∈ prev.filter (fun h => h.destination.name ≠ loc.name) :=
      List.mem_of_mem_take hitem
    have h2 := (List.mem_filter.mp h1).2
    simpa using h2
  · intro hts hsorted
    unfold addToHistory
    refine List.Pairwise.cons ?_ ?_
    · intro b hb
      have h1 : b ∈ prev :=
        (List.mem_filter.mp (List.mem_of_mem_take hb)).1
      exact hts b h1
    · exact List.Pairwise.sublist
        ((List.take_sublist _ _).trans (List.filter_sublist _)) hsorted

/-- Witness for C9 on a concrete history: adding a destination named A to a
history already holding an older A and a B keeps the bound, removes the old
A, and preserves the most-recent-first order. -/
theorem addToHistory_spec_witness :
    (addToHistory
        [{ id := "1", destination := { lat := 1, lng := 2, name := some "A" }, timestamp := 50 },
         { id := "2", destination := { lat := 3, lng := 4, name := some "B" }, timestamp := 40 }]
        { lat := 5, lng := 6, name := some "A" } 100).length ≤ 10 ∧
    (∀ item ∈ (addToHistory
        [{ id := "1", destination := { lat := 1, lng := 2, name := some "A" }, timestamp := 50 },
         { id := "2", destination := { lat := 3, lng := 4, name := some "B" }, timestamp := 40 }]
        { lat := 5, lng := 6, name := some "A" } 100).tail,
      item.destination.name ≠ some "A") ∧
    List.Pairwise (fun a b => b.timestamp ≤ a.timestamp)
      (addToHistory
        [{ id := "1", destination := { lat := 1, lng := 2, name := some "A" }, timestamp := 50 },
         { id := "2", destination := { lat := 3, lng := 4, name := some "B" }, timestamp := 40 }]
        { lat := 5, lng := 6, name := some "A" } 100) :=
  ⟨(addToHistory_spec _ _ _).1,
   (addToHistory_spec _ _ _).2.1,
   (addToHistory_spec _ _ _).2.2 (by decide) (by decide)⟩

/-! ### Helper lemmas for the Haversine distance -/

/-- The arctangent of a nonnegative quotient of nonnegative reals, as
computed by `atan2`, is nonnegative. -/
lemma atan2_nonneg (y x : ℝ) (hy : 0 ≤ y) (hx : 0 ≤ x) : 0 ≤ atan2 y x := by
  unfold atan2
  rcases lt_or_eq_of_le hx with hxpos | hxeq
  · rw [if_pos hxpos]
    have h0 : (0:ℝ) ≤ y / x := div_nonneg hy (le_of_lt hxpos)
    calc (0:ℝ) = Real.arctan 0 := Real.arctan_zero.symm
      _ ≤ Real.arctan (y / x) := Real.arctan_strictMono.monotone h0
  · rw [if_neg (by rw [← hxeq]; exact lt_irrefl 0),
      if_neg (by rw [← hxeq]; exact lt_irrefl 0)]
    rcases lt_or_eq_of_le hy with hypos | hyeq
    · rw [if_pos hypos]
      linarith [Real.pi_pos]
    · rw [if_neg (by rw [← hyeq]; exact lt_irrefl 0),
        if_neg (by rw [← hyeq]; exact lt_irrefl 0)]

/-- For nonnegative arguments `atan2` stays in the first quadrant. -/
lemma atan2_le_pi_div_two (y x : ℝ) (hy : 0 ≤ y) (hx : 0 ≤ x) :
    atan2 y x ≤ Real.pi / 2 := by
  unfold atan2
  rcases lt_or_eq_of_le hx with hxpos | hxeq
  · rw [if_pos hxpos]
    exact le_of_lt (Real.arctan_lt_pi_div_two _)
  · rw [if_neg (by rw [← hxeq]; exact lt_irrefl 0),
      if_neg (by rw [← hxeq]; exact lt_irrefl 0)]
    rcases lt_or_eq_of_le hy with hypos | hyeq
    · rw [if_pos hypos]
    · rw [if_neg (by rw [← hyeq]; exact lt_irrefl 0),
        if_neg (by rw [← hyeq]; exact lt_irrefl 0)]
      linarith [Real.pi_pos]

/-- Value of `atan2` on the axis point reached when the two points of the
Haversine formula coincide. -/
lemma atan2_zero_one : atan2 0 1 = 0 := by
  unfold atan2
  rw [if_pos one_pos]
  rw [zero_div, Real.arctan_zero]

/-- Symmetry of the Haversine intermediate quantity `a` under swapping the
two coordinate pairs. -/
lemma haversineTerm_symm (x y u v : ℝ) :
    Real.sin ((y - x) * Real.pi / 180 / 2) * Real.sin ((y - x) * Real.pi / 180 / 2) +
      Real.cos (x * Real.pi / 180) * Real.cos (y * Real.pi / 180) *
        Real.sin ((v - u) * Real.pi / 180 / 2) * Real.sin ((v - u) * Real.pi / 180 / 2) =
    Real.sin ((x - y) * Real.pi / 180 / 2) * Real.sin ((x - y) * Real.pi / 180 / 2) +
      Real.cos (y * Real.pi / 180) * Real.cos (x * Real.pi / 180) *
        Real.sin ((u - v) * Real.pi / 180 / 2) * Real.sin ((u - v) * Real.pi / 180 / 2) := by
  have e1 : (x - y) * Real.pi / 180 / 2 = -((y - x) * Real.pi / 180 / 2) := by ring
  have e2 : (u - v) * Real.pi / 180 / 2 = -((v - u) * Real.pi / 180 / 2) := by ring
  rw [e1, e2, Real.sin_neg, Real.sin_neg]
  ring

/-! ### C7: the Haversine distance is symmetric and zero on equal points -/

/-- C7: for all coordinate pairs, `calculateDistance` is symmetric in its two
points, and the distance from a point to itself is exactly zero. -/
theorem calculateDistance_symm_self :
    (∀ lat1 lon1 lat2 lon2 : ℝ,
        calculateDistance lat1 lon1 lat2 lon2 = calculateDistance lat2 lon2 lat1 lon1) ∧
    (∀ lat lon : ℝ, calculateDistance lat lon lat lon = 0) := by
  constructor
  · intro lat1 lon1 lat2 lon2
    simp only [calculateDistance]
    rw [haversineTerm_symm lat1 lat2 lon1 lon2]
  · intro lat lon
    simp [calculateDistance, atan2_zero_one]

/-! ### C10: the distance is nonnegative and at most half the circumference -/

/-- C10: `calculateDistance` always returns a value between `0` and
`π * 6371000` (half the circumference of the modelled sphere); consequently a
strictly negative threshold in DISTANCE mode is never met by any sample,
since computed distances are nonnegative. -/
theorem calculateDistance_bounds :
    (∀ lat1 lon1 lat2 lon2 : ℝ,
        0 ≤ calculateDistance lat1 lon1 lat2 lon2 ∧
        calculateDistance lat1 lon1 lat2 lon2 ≤ Real.pi * 6371000) ∧
    (∀ (settings : AlarmSettings) (dist : ℚ) (now su : ℤ),
        settings.alertType = AlertType.distance → settings.threshold < 0 → 0 ≤ dist →
        shouldTrigger settings dist now su = false) := by
  constructor
  · have key : ∀ A : ℝ,
        0 ≤ (6371000:ℝ) * (2 * atan2 (Real.sqrt A) (Real.sqrt (1 - A))) ∧
        (6371000:ℝ) * (2 * atan2 (Real.sqrt A) (Real.sqrt (1 - A))) ≤ Real.pi * 6371000 := by
      intro A
      have h0 := atan2_nonneg (Real.sqrt A) (Real.sqrt (1 - A))
        (Real.sqrt_nonneg _) (Real.sqrt_nonneg _)
      have h1 := atan2_le_pi_div_two (Real.sqrt A) (Real.sqrt (1 - A))
        (Real.sqrt_nonneg _) (Real.sqrt_nonneg _)
      constructor
      · nlinarith
      · nlinarith
    intro lat1 lon1 lat2 lon2
    simp only [calculateDistance]
    exact key _
  · intro settings dist now su hA hth hd
    by_cases hs : now < su
    · unfold shouldTrigger
      rw [if_pos hs]
    · have hnle : ¬ dist ≤ settings.threshold :=
        fun hc => absurd (le_trans hd hc) (not_le.mpr hth)
      simp [shouldTrigger, hA, hs, hnle]

/-- Witness for C10: the bounds at a concrete coordinate pair, and a concrete
negative-threshold sample that does not fire. -/
theorem calculateDistance_bounds_witness :
    (0 ≤ calculateDistance 10 20 30 40 ∧
      calculateDistance 10 20 30 40 ≤ Real.pi * 6371000) ∧
    shouldTrigger (mkSettings AlertType.distance (-100)) 250 0 0 = false :=
  ⟨calculateDistance_bounds.1 10 20 30 40,
   calculateDistance_bounds.2 (mkSettings AlertType.distance (-100)) 250 0 0
     rfl (by decide) (by decide)⟩

end BusArrival
